import Mathlib

/-!
Shallow embedding of the Plot Request Builder core of QEP-Web (`src/gui.py`):
file staging (`save_file`), the per-plot-type request assembly performed in
`render_dashboard`, the pre-execution validation chain (gui.py lines 262-276),
and the Fermi-energy text detector described in the design document (the
backend module `qep5.py` holding it is not part of this snapshot, so that
single component is modelled from the spec).

Python conventions carried over explicitly:
  * a dict value that may be absent or `None` is an `Option`;
  * Python truthiness of the values the validator reads is modelled by
    dedicated `truthy*` functions (`not s` on a string is emptiness, on a
    list emptiness, on `None` always true);
  * `str.strip()` and comma `str.split` are re-implemented character by
    character (`pyStrip`, `pySplitComma`) to keep kernel reducibility;
  * floats entered in the UI are modelled as rationals.
-/

namespace QEPWeb

/-- An uploaded file: Streamlit `UploadedFile` with `.name` and `.getbuffer()`
(bytes modelled as `List Nat`). -/
structure Blob where
  name : String
  content : List Nat
deriving DecidableEq

/-- os.path.join with a single separator, as used on the session temp dir. -/
def pathJoin (a b : String) : String := a ++ "/" ++ b

/-- The staged working area: files written so far (latest write first) and the
directories created by `os.makedirs`. -/
structure FS where
  files : List (String × List Nat) := []
  dirs : List String := []
deriving DecidableEq

/-- Reading back a staged file: the most recent write to that path wins. -/
def readFile (fs : FS) (p : String) : Option (List Nat) :=
  (fs.files.find? (fun e => e.fst == p)).map (fun e => e.snd)

/-- Embeds `save_file` (src/gui.py lines 44-53): `None` upload returns `None`;
otherwise the blob is written (overwriting) under the session root, inside
`subdir` when given (`os.makedirs(..., exist_ok=True)` creates it), and the
final path is returned. -/
def save_file (root : String) (fs : FS) (uploaded : Option Blob)
    (subdir : Option String) : FS × Option String :=
  match uploaded with
  | none => (fs, none)
  | some f =>
    match subdir with
    | none =>
      let p := pathJoin root f.name
      ({ fs with files := (p, f.content) :: fs.files }, some p)
    | some sub =>
      let dir := pathJoin root sub
      let p := pathJoin dir f.name
      ({ files := (p, f.content) :: fs.files, dirs := dir :: fs.dirs }, some p)

/-- The path `save_file` returns, independent of the filesystem state. -/
def savedPath (root : String) (b : Option Blob) : Option String :=
  b.map (fun f => pathJoin root f.name)

/-! ### Python string helpers -/

/-- Whitespace characters stripped by Python `str.strip()`. -/
def isPySpace (c : Char) : Bool :=
  c == ' ' || c == '\t' || c == '\n' || c == '\r' ||
    c.toNat == 11 || c.toNat == 12

/-- Python `str.strip()`. -/
def pyStrip (s : String) : String :=
  String.mk (((s.toList.dropWhile isPySpace).reverse.dropWhile isPySpace).reverse)

def charListPrefixOf : List Char → List Char → Bool
  | [], _ => true
  | _ :: _, [] => false
  | a :: as, b :: bs => a == b && charListPrefixOf as bs

def charListInfixOf (needle : List Char) : List Char → Bool
  | [] => charListPrefixOf needle []
  | c :: cs => charListPrefixOf needle (c :: cs) || charListInfixOf needle cs

/-- Python `needle in hay` on strings (substring containment). -/
def strContains (hay needle : String) : Bool :=
  charListInfixOf needle.toList hay.toList

def pySplitAux (sep : Char) : List Char → List Char → List String
  | [], cur => [String.mk cur.reverse]
  | c :: cs, cur =>
    if c == sep then String.mk cur.reverse :: pySplitAux sep cs []
    else pySplitAux sep cs (c :: cur)

/-- Python comma `str.split` (keeps empty fields; splitting the empty string
gives one empty field). -/
def pySplitComma (s : String) : List String := pySplitAux ',' s.toList []

/-! ### Python truthiness of the values the dashboard reads -/

/-- `not x` in Python for an optional string (`args.get(...)`): `None` and `""`
are falsy. -/
def truthyStr : Option String → Bool
  | none => false
  | some s => !s.toList.isEmpty

/-- `not x` in Python for an optional bool: `None` is falsy. -/
def truthyOptBool : Option Bool → Bool
  | none => false
  | some b => b

/-- The `highlight_channel` value is either a raw string or a list of channel
names (lines 193-198 of src/gui.py). -/
inductive HL where
  | str (s : String)
  | list (xs : List String)
deriving DecidableEq

/-- Python truthiness of a possibly-absent highlight value: absent, `""` and
`[]` are falsy. -/
def truthyHL : Option HL → Bool
  | none => false
  | some (.str s) => !s.toList.isEmpty
  | some (.list xs) => !xs.isEmpty

/-! ### Plot types and the assembled args dict -/

/-- Backend plot types (the values of `p_map`, src/gui.py lines 78-81). -/
inductive PlotType where
  | band | fatbands | dos | pdos | overlay_band
deriving DecidableEq

/-- The merged `args` dictionary at the moment `GENERATE VISUALIZATION` is
pressed (after `args.update(paths)`, line 259). Absent keys and keys holding
`None` are both `none`. -/
structure Args where
  plot_type : PlotType := .band
  fermi_level : ℚ := 0
  shift_fermi : Bool := true
  y_range : Option (ℚ × ℚ) := none
  spin : Option Bool := none
  sub_orb : Option Bool := none
  fatbands_mode : Option String := none
  dual : Option Bool := none
  highlight_channel : Option HL := none
  heat_vmin : Option ℚ := none
  heat_vmax : Option ℚ := none
  overlay_bands_in_heat : Option Bool := none
  s_min : Option ℚ := none
  s_max : Option ℚ := none
  weight_threshold : Option ℚ := none
  plot_total_dos : Option Bool := none
  band_mode : Option String := none
  pdos_mode : Option String := none
  cmap_name : String := "tab10"
  dpi : ℚ := 200
  band_file : Option String := none
  kpath_file : Option String := none
  fatband_dir : Option String := none
  pdos_dir : Option String := none
  dos_file : Option String := none
  band_file2 : Option String := none
  kpath_file2 : Option String := none
deriving DecidableEq

/-- Validation outcome of the pre-execution checks. -/
inductive VResult where
  | ready
  | missingInput (msg : String)
deriving DecidableEq

/-- Embeds the validation chain (src/gui.py lines 262-276). It is a Python
`if/elif` cascade keyed on `pt`: once the first `if` matches (`pt` is a
band-like type), none of the `elif` arms run, whether or not the inner
band/kpath check failed. -/
def validate (a : Args) : VResult :=
  if a.plot_type = .band ∨ a.plot_type = .fatbands
      ∨ a.plot_type = .overlay_band then
    if truthyStr a.band_file = false ∨ truthyStr a.kpath_file = false then
      .missingInput "Missing Band or K-Path file."
    else
      .ready
  else if (a.plot_type = .fatbands ∨ a.plot_type = .pdos)
      ∧ truthyStr a.fatband_dir = false then
    .missingInput "Missing PDOS files."
  else if a.plot_type = .fatbands ∧ truthyOptBool a.plot_total_dos = true
      ∧ truthyStr a.dos_file = false then
    .missingInput "You enabled Side DOS but didn\x27t upload a DOS file."
  else if a.plot_type = .fatbands
      ∧ strContains (a.fatbands_mode.getD "") "heat" = true
      ∧ truthyHL a.highlight_channel = false then
    .missingInput "Heatmap requires a Highlight Channel."
  else
    .ready

/-! ### Dashboard widget state and the request assembly -/

/-- The state of every dashboard widget that feeds `args`/`paths` in
`render_dashboard` (field defaults are the widget defaults in src/gui.py). -/
structure UserInput where
  u_band : Option Blob := none
  u_kpath : Option Blob := none
  u_pdos : List Blob := []
  u_dos : Option Blob := none
  u_b2 : Option Blob := none
  u_k2 : Option Blob := none
  fermi_level : ℚ := 0
  shift_fermi : Bool := true
  use_custom_y : Bool := false
  ymin_dos : ℚ := 0
  ymax_dos : ℚ := 10
  ymin_band : ℚ := -3
  ymax_band : ℚ := 3
  spin : Bool := false
  sub_orb : Bool := false
  fig_width : ℚ := 12
  fig_height : ℚ := 6
  fb_mode : String := "most"
  hl : String := ""
  dual : Bool := false
  h_min : ℚ := 0
  h_max : ℚ := 0
  overlay_in_heat : Bool := true
  s_min : ℚ := 10
  s_max : ℚ := 100
  weight_threshold : ℚ := 1/100
  plot_total_dos_cb : Bool := false
  b_mode : String := "normal"
  pdos_mode : String := "atomic"
  cmap_name : String := "tab10"
  dpi : ℚ := 200
deriving DecidableEq

/-- Embeds the `args`/`paths` assembly of `render_dashboard`
(src/gui.py lines 84-259) for a chosen plot type `pt`, up to and including
the `args.update(paths)` merge on line 259. A key that the source never sets
for `pt` (or sets from a `None`-returning `save_file`) is `none`.

Traceability notes (line numbers are src/gui.py):
  * 97-103: band/kpath uploaders only for band-like types;
  * 106-114: the PDOS multi-uploader only for fatbands/pdos; when files are
    given, `paths[fatband_dir] = temp_dir/pdos_data` (and `pdos_dir` too),
    else `paths[fatband_dir] = None`;
  * 117-118: the DOS uploader is shown for every plot type;
  * 121-127: second pair only for overlay;
  * 138-154: y-range is the custom pair (or `None`) for dos/pdos, always the
    energy pair otherwise;
  * 171-230: fatbands mode flags, highlight/dual split, heat, bubble fields;
  * 233-238: for band with a non-normal color mode the source copies
    `paths.get(fatband_dir)`, but `paths` never holds that key for band
    (the uploader block on 106 is skipped), so the copy is always `None`;
  * 241-242: pdos grouping mode. The layer-assignment dict (213-219, a
    `ast.literal_eval` of free text, unused by validation) is not modelled. -/
def buildArgs (root : String) (pt : PlotType) (inp : UserInput) : Args :=
  let band_file := if pt = .band ∨ pt = .fatbands ∨ pt = .overlay_band then
                     savedPath root inp.u_band
                   else none
  let kpath_file := if pt = .band ∨ pt = .fatbands ∨ pt = .overlay_band then
                      savedPath root inp.u_kpath
                    else none
  let paths_fatband_dir :=
    if (pt = .fatbands ∨ pt = .pdos) ∧ inp.u_pdos ≠ [] then
      some (pathJoin root "pdos_data")
    else none
  let dos_file := savedPath root inp.u_dos
  let band_file2 := if pt = .overlay_band then savedPath root inp.u_b2 else none
  let kpath_file2 := if pt = .overlay_band then savedPath root inp.u_k2 else none
  let y_range :=
    if pt = .pdos ∨ pt = .dos then
      if inp.use_custom_y then some (inp.ymin_dos, inp.ymax_dos) else none
    else some (inp.ymin_band, inp.ymax_band)
  let is_line_mode := inp.fb_mode == "normal" || inp.fb_mode == "o_atomic"
                        || inp.fb_mode == "o_orbital"
                        || inp.fb_mode == "o_element_orbital"
  let is_heat_mode := strContains inp.fb_mode "heat"
  let is_layer_mode := inp.fb_mode == "layer"
  let needs_highlight := (is_line_mode && inp.fb_mode != "normal") || is_heat_mode
  let highlight_channel :=
    if pt = .fatbands ∧ needs_highlight = true then
      some (if is_line_mode then
              if inp.dual && strContains inp.hl "," then
                HL.list ((pySplitComma inp.hl).map pyStrip)
              else HL.str inp.hl
            else HL.str inp.hl)
    else none
  { plot_type := pt
    fermi_level := inp.fermi_level
    shift_fermi := inp.shift_fermi
    y_range := y_range
    spin := if pt = .band ∨ pt = .fatbands then some inp.spin else none
    sub_orb := if pt = .band ∨ pt = .fatbands then some inp.sub_orb else none
    fatbands_mode := if pt = .fatbands then some inp.fb_mode else none
    dual := if pt = .fatbands ∧ (needs_highlight && is_line_mode) = true then
              some inp.dual
            else none
    highlight_channel := highlight_channel
    heat_vmin := if pt = .fatbands ∧ is_heat_mode = true ∧ (0 : ℚ) < inp.h_max
                 then some inp.h_min else none
    heat_vmax := if pt = .fatbands ∧ is_heat_mode = true ∧ (0 : ℚ) < inp.h_max
                 then some inp.h_max else none
    overlay_bands_in_heat := if pt = .fatbands ∧ is_heat_mode = true then
                               some inp.overlay_in_heat
                             else none
    s_min := if pt = .fatbands
                ∧ (is_line_mode || is_heat_mode || is_layer_mode) = false
             then some inp.s_min else none
    s_max := if pt = .fatbands
                ∧ (is_line_mode || is_heat_mode || is_layer_mode) = false
             then some inp.s_max else none
    weight_threshold := if pt = .fatbands
                ∧ (is_line_mode || is_heat_mode || is_layer_mode) = false
             then some inp.weight_threshold else none
    plot_total_dos := if pt = .fatbands then some inp.plot_total_dos_cb else none
    band_mode := if pt = .band then some inp.b_mode else none
    pdos_mode := if pt = .pdos then some inp.pdos_mode else none
    cmap_name := inp.cmap_name
    dpi := inp.dpi
    band_file := band_file
    kpath_file := kpath_file
    fatband_dir := match pt with
      | .fatbands | .pdos => paths_fatband_dir
      | .band => if inp.b_mode ≠ "normal" then paths_fatband_dir else none
      | _ => none
    pdos_dir := if (pt = .fatbands ∨ pt = .pdos) ∧ inp.u_pdos ≠ [] then
                  paths_fatband_dir
                else none
    dos_file := dos_file
    band_file2 := band_file2
    kpath_file2 := kpath_file2 }

/-! ### Fermi-energy detection (modelled from the spec) -/

/-- Digit string to natural number. -/
def natOfDigits (ds : List Char) : ℕ :=
  ds.foldl (fun n c => n * 10 + (c.toNat - 48)) 0

/-- Parses a decimal literal (optional sign, digits, optional fractional part)
at the head of a character list, returning the value and the rest. All
arithmetic is integral and the value is a single `mkRat`, keeping the
definition kernel-reducible. -/
def parseFloat (cs : List Char) : Option (ℚ × List Char) :=
  let signed : Bool × List Char :=
    match cs with
    | '-' :: rest => (true, rest)
    | '+' :: rest => (false, rest)
    | _ => (false, cs)
  let intDs := signed.2.takeWhile Char.isDigit
  let afterInt := signed.2.dropWhile Char.isDigit
  if intDs.isEmpty then none
  else
    match afterInt with
    | '.' :: cs3 =>
      let fracDs := cs3.takeWhile Char.isDigit
      let rest := cs3.dropWhile Char.isDigit
      let num : ℤ := (natOfDigits intDs) * 10 ^ fracDs.length + natOfDigits fracDs
      some (mkRat (if signed.1 then -num else num) (10 ^ fracDs.length), rest)
    | rest =>
      let num : ℤ := natOfDigits intDs
      some (mkRat (if signed.1 then -num else num) 1, rest)

/-- Drops `pre` from the head of `cs` when it matches, else fails. -/
def stripPre : List Char → List Char → Option (List Char)
  | [], cs => some cs
  | _ :: _, [] => none
  | p :: ps, c :: cs => if p == c then stripPre ps cs else none

/-- After a phrase occurrence: skip whitespace, read a float, skip whitespace,
and require the unit `eV`. -/
def matchAfterPhrase (cs : List Char) : Option ℚ :=
  match parseFloat (cs.dropWhile isPySpace) with
  | none => none
  | some (v, rest) =>
    if charListPrefixOf "eV".toList (rest.dropWhile isPySpace) then some v
    else none

/-- Scans left to right for the first position where `phrase` is followed
(after whitespace) by a float and `eV`, returning that float. -/
def scanPhrase (phrase : List Char) : List Char → Option ℚ
  | [] => (stripPre phrase []).bind matchAfterPhrase
  | c :: cs =>
    match (stripPre phrase (c :: cs)).bind matchAfterPhrase with
    | some v => some v
    | none => scanPhrase phrase cs

def fermiPhrase : List Char := "the Fermi energy is".toList

def homoPhrase : List Char := "highest occupied level".toList

/-- Modelled from the spec: `detect_fermi` lives in the backend module
`qep5.py`, which is not part of this repository snapshot (only its caller
`gui.py` is). Per the design document ParameterDetector contract it reads
the file as text, applies the pattern "the Fermi energy is `<float>` eV",
then the fallback "highest occupied level `<float>` eV", returning the first
match of the first pattern, else of the second, else not-found; every I/O
failure is caught and mapped to not-found. The argument is the outcome of the
read: `none` for an I/O failure, `some txt` for the decoded content. -/
def detect_fermi : Option String → Option ℚ
  | none => none
  | some txt =>
    match scanPhrase fermiPhrase txt.toList with
    | some v => some v
    | none => scanPhrase homoPhrase txt.toList

/-! ### Concrete inputs used by the claim theorems -/

/-- Fatbands session: band and k-path files staged, PDOS files staged,
"Plot Side DOS" checked, no DOS file uploaded. -/
def inpC1 : UserInput :=
  { u_band := some ⟨"bands.gnu", [1]⟩, u_kpath := some ⟨"kpath.in", [2]⟩,
    u_pdos := [⟨"mos2.pdos", [3]⟩], plot_total_dos_cb := true }

/-- Fatbands session: band and k-path files staged, no PDOS files. -/
def inpC2 : UserInput :=
  { u_band := some ⟨"bands.gnu", [1]⟩, u_kpath := some ⟨"kpath.in", [2]⟩ }

/-- A band request with neither band nor k-path file staged. -/
def argsC4 : Args := { plot_type := .band }

/-- A pdos session with one staged projection file. -/
def inpC5 : UserInput := { u_pdos := [⟨"mos2.pdos", [3]⟩] }

/-- Line-style fatbands display in dual mode with a comma highlight string. -/
def inpC6 : UserInput := { fb_mode := "o_atomic", dual := true, hl := "Mo, S" }

/-- Band session whose y-limit widgets are set to an inverted pair. -/
def inpC8 : UserInput := { ymin_band := 3, ymax_band := -3 }

/-- Overlay request with only the primary pair staged. -/
def argsC10 : Args :=
  { plot_type := .overlay_band, band_file := some "/tmp/bands.gnu",
    kpath_file := some "/tmp/kpath.in" }

/-! ### Helper lemmas -/

theorem save_file_snd (root : String) (fs : FS) (b : Option Blob) :
    (save_file root fs b none).snd = savedPath root b := by
  cases b <;> rfl

/-- A joined path always contains the separator, so it is Python-truthy. -/
theorem truthy_pathJoin (a b : String) :
    truthyStr (some (pathJoin a b)) = true := by
  cases a with
  | mk la =>
    cases b with
    | mk lb =>
      simp [truthyStr, pathJoin, String.toList]

/-! ### Claim theorems -/

/-- C1: the spec says a fatbands request with "Plot Side DOS" on and no
staged DOS file always fails validation citing the missing DOS file. The
code disagrees: with the band/kpath pair staged the first `if` of the
validation chain (gui.py line 264) already matches `fatbands`, so the
side-DOS `elif` (line 271) can never run and the request validates `ready`
with `plot_total_dos = True` and no `dos_file`. -/
theorem C1_side_dos_check_unreachable :
    (buildArgs "/tmp" .fatbands inpC1).plot_total_dos = some true
    ∧ (buildArgs "/tmp" .fatbands inpC1).dos_file = none
    ∧ validate (buildArgs "/tmp" .fatbands inpC1) = .ready :=
  ⟨by decide, by decide, by decide⟩

/-- C2: the spec says a fatbands or pdos request without a staged projection
directory always fails validation with "Missing PDOS files.". The code only
does so for pdos: for fatbands the first `if` of the chain (gui.py line 264)
captures the plot type, so the projection-directory `elif` (line 268) never
runs and a fatbands request with the band/kpath pair staged but no PDOS
files validates `ready`. -/
theorem C2_fatband_dir_check_unreachable :
    (buildArgs "/tmp" .fatbands inpC2).fatband_dir = none
    ∧ validate (buildArgs "/tmp" .fatbands inpC2) = .ready
    ∧ validate (buildArgs "/tmp" .pdos {}) = .missingInput "Missing PDOS files." :=
  ⟨by decide, by decide, by decide⟩

/-- C3: `detect_fermi` (modelled from the spec, see its doc) maps an I/O
failure to not-found, returns any match of the primary
"the Fermi energy is `<float>` eV" pattern, otherwise falls back to the
"highest occupied level `<float>` eV" pattern, and behaves as the three worked
spec examples require (with primary-pattern priority). -/
theorem C3_detect_fermi_spec :
    detect_fermi none = none
    ∧ (∀ s v, scanPhrase fermiPhrase s.toList = some v →
        detect_fermi (some s) = some v)
    ∧ (∀ s, scanPhrase fermiPhrase s.toList = none →
        detect_fermi (some s) = scanPhrase homoPhrase s.toList)
    ∧ detect_fermi (some "     the Fermi energy is    -1.2345 eV") =
        some (mkRat (-12345) 10000)
    ∧ detect_fermi (some "   highest occupied level   0.5000 eV") =
        some (mkRat 1 2)
    ∧ detect_fermi
        (some "highest occupied level 2.0 eV then the Fermi energy is 1.0 eV") =
        some (mkRat 1 1)
    ∧ detect_fermi (some "no such phrase") = none := by
  refine ⟨rfl, ?_, ?_, by decide, by decide, by decide, by decide⟩
  · intro s v h
    simp only [String.toList] at h
    simp [detect_fermi, String.toList, h]
  · intro s h
    simp only [String.toList] at h
    simp [detect_fermi, String.toList, h]

theorem C3_witness :
    detect_fermi (some "the Fermi energy is 2.5 eV") = some (mkRat 25 10) :=
  C3_detect_fermi_spec.2.1 "the Fermi energy is 2.5 eV" (mkRat 25 10) (by decide)

/-- C4: a band, fatbands or overlay request in which the band file or the
k-path file is absent always fails validation with the band/kpath message
and never validates `ready`. -/
theorem C4_missing_band_pair (a : Args)
    (hpt : a.plot_type = .band ∨ a.plot_type = .fatbands
      ∨ a.plot_type = .overlay_band)
    (hmiss : a.band_file = none ∨ a.kpath_file = none) :
    validate a = .missingInput "Missing Band or K-Path file." := by
  rcases hpt with h | h | h <;> rcases hmiss with h2 | h2 <;>
    simp [validate, h, h2, truthyStr]

theorem C4_witness :
    validate argsC4 = .missingInput "Missing Band or K-Path file." :=
  C4_missing_band_pair argsC4 (Or.inl rfl) (Or.inl rfl)

/-- C5: a pdos request built from a session in which at least one projection
file was staged (so `fatband_dir` points at the staged `pdos_data`
directory) passes validation and is `ready`, whatever the other inputs. -/
theorem C5_pdos_ready (root : String) (inp : UserInput)
    (h : inp.u_pdos ≠ []) :
    validate (buildArgs root .pdos inp) = .ready := by
  cases hp : inp.u_pdos with
  | nil => exact absurd hp h
  | cons b l =>
    simp [validate, buildArgs, hp, truthy_pathJoin]

theorem C5_witness : validate (buildArgs "/tmp" .pdos inpC5) = .ready :=
  C5_pdos_ready "/tmp" inpC5 (by decide)

/-- C6: under a line-style fatbands display with dual mode on, a highlight
string containing a comma is turned into the list of its comma-separated
tokens with surrounding whitespace stripped, while a highlight string with
no comma is kept as the raw string; the concrete spec example "Mo, S" is
covered by the witness. -/
theorem C6_dual_highlight_split (root : String) (inp : UserInput)
    (hmode : inp.fb_mode = "o_atomic" ∨ inp.fb_mode = "o_orbital"
      ∨ inp.fb_mode = "o_element_orbital")
    (hdual : inp.dual = true) :
    (strContains inp.hl "," = true →
      (buildArgs root .fatbands inp).highlight_channel =
        some (.list ((pySplitComma inp.hl).map pyStrip)))
    ∧ (strContains inp.hl "," = false →
      (buildArgs root .fatbands inp).highlight_channel =
        some (.str inp.hl)) := by
  rcases hmode with h | h | h <;>
    exact ⟨fun hc => by simp [buildArgs, h, hdual, hc],
           fun hc => by simp [buildArgs, h, hdual, hc]⟩

theorem C6_witness :
    (buildArgs "/tmp" .fatbands inpC6).highlight_channel =
      some (HL.list ["Mo", "S"]) := by
  have h := (C6_dual_highlight_split "/tmp" inpC6 (Or.inl rfl) rfl).1 (by decide)
  rw [h]
  decide

/-- C7: the spec says the projection directory is usable for band-mode
coloring; in the code no user input can put a staged directory into the
band configuration `fatband_dir` slot, because the PDOS uploader
(gui.py line 106) is only rendered for fatbands/pdos, so the copy on line
238 always reads an absent key even though line 237 invites the upload. -/
theorem C7_band_fatband_dir_always_none (root : String) (inp : UserInput) :
    (buildArgs root .band inp).fatband_dir = none := by
  simp [buildArgs]

/-- C8 counterexample: the claim that a present `y_range` always satisfies
`min < max` fails on the code: with the y-limit widgets set to 3 and -3 the
built band request carries `y_range = (3, -3)` although `3 < -3` is false. -/
theorem C8_counterexample :
    (buildArgs "/tmp" .band inpC8).y_range = some (3, -3)
    ∧ ¬((3 : ℚ) < -3) :=
  ⟨by decide, by decide⟩

/-- C8 (amended): a built request `y_range` is either absent or exactly
the user-supplied widget pair (the DOS pair for dos/pdos, the energy pair
otherwise); no `min < max` ordering is enforced. -/
theorem C8_y_range_passthrough (root : String) (pt : PlotType)
    (inp : UserInput) :
    (buildArgs root pt inp).y_range = none
    ∨ (buildArgs root pt inp).y_range = some (inp.ymin_dos, inp.ymax_dos)
    ∨ (buildArgs root pt inp).y_range = some (inp.ymin_band, inp.ymax_band) := by
  cases pt <;> cases hc : inp.use_custom_y <;> simp [buildArgs, hc]

/-- C9: staging the same file name twice into one subdirectory overwrites
(the second content is what the returned path reads back), the
subdirectory is created by the staging call itself, and staging an absent
upload returns `none` leaving the working area untouched. -/
theorem C9_save_file_semantics (root sub name : String) (fs : FS)
    (c1 c2 : List Nat) :
    (save_file root fs (some ⟨name, c1⟩) (some sub)).snd =
      some (pathJoin (pathJoin root sub) name)
    ∧ (save_file root (save_file root fs (some ⟨name, c1⟩) (some sub)).fst
        (some ⟨name, c2⟩) (some sub)).snd =
      some (pathJoin (pathJoin root sub) name)
    ∧ readFile
        (save_file root (save_file root fs (some ⟨name, c1⟩) (some sub)).fst
          (some ⟨name, c2⟩) (some sub)).fst
        (pathJoin (pathJoin root sub) name) = some c2
    ∧ pathJoin root sub ∈
        (save_file root (save_file root fs (some ⟨name, c1⟩) (some sub)).fst
          (some ⟨name, c2⟩) (some sub)).fst.dirs
    ∧ save_file root fs none (some sub) = (fs, none) := by
  refine ⟨rfl, rfl, ?_, ?_, rfl⟩
  · simp [save_file, readFile]
  · simp [save_file]

/-- C10: an overlay request whose primary band/kpath pair is staged
validates `ready` whatever the second pair holds: the validator never
consults `band_file2`/`kpath_file2` (the witness has both absent). -/
theorem C10_overlay_second_pair_unchecked (a : Args)
    (hpt : a.plot_type = .overlay_band)
    (hb : truthyStr a.band_file = true)
    (hk : truthyStr a.kpath_file = true) :
    validate a = .ready := by
  simp [validate, hpt, hb, hk]

theorem C10_witness : validate argsC10 = .ready :=
  C10_overlay_second_pair_unchecked argsC10 rfl (by decide) (by decide)

end QEPWeb
